import Mathlib

/-!
Verification development for the purkinje-uv repository.

Scope of the embedding:
* `src/purkinje_uv/fractal_tree_parameters.py` — the `FractalTreeParameters`
  dataclass, its `__post_init__` validation, `to_dict` / `from_dict`
  serialization helpers.
* `scripts/validate_purkinje_uv_smoke.py` — `pca_seed_vertices`,
  `grow_with_retry`, `validate_outputs`.

Modelling conventions:
* Real-valued parameters and mesh coordinates are modelled as exact
  rationals (`ℚ`).  IEEE-754 rounding is outside the scope of this
  embedding; `math.pi` is embedded as the exact rational value of the
  double-precision float the Python code compares against.
* Python exceptions are modelled by the `Err` type below; `raise` becomes
  returning `Except.error`.  Exception messages are embedded as their
  static text (interpolated runtime values such as float reprs are elided,
  except where a claim depends on them).
* A numpy float entry that may be `NaN`/`±Inf` is modelled as `Option ℚ`
  (`none` = non-finite); arithmetic on such entries propagates `none`,
  matching IEEE non-finite propagation for the operations used here.
* `np.linalg.svd` is an external numeric routine: the selector is embedded
  parametrically over an arbitrary function `pc1f` producing the first
  right-singular vector, and every theorem about the selector holds for
  every such function.
-/

/-- Python exception values raised or propagated by the embedded code.
`typeErr` / `valueErr` / `runtimeErr` mirror `TypeError`, `ValueError` and
`RuntimeError`; `engineErr` is an exception of the external growth engine,
re-raised unchanged by the retry controller. -/
inductive Err
  | typeErr (msg : String)
  | valueErr (msg : String)
  | runtimeErr (msg : String)
  | engineErr (msg : String)
deriving DecidableEq, Repr

/-- The exact rational value of the IEEE-754 double `math.pi`, which is the
value the Python validation compares `branch_angle` against. -/
def mathPi : ℚ := 884279719003555 / 281474976710656

/-- Field-for-field embedding of the `FractalTreeParameters` dataclass
(`fractal_tree_parameters.py`, lines 48-66).  Python `int` is unbounded,
hence `ℤ`; floats are exact rationals. -/
structure FractalTreeParameters where
  meshfile : Option String := none
  init_node_id : ℤ := 0
  second_node_id : ℤ := 1
  init_length : ℚ := 0.1
  N_it : ℤ := 10
  length : ℚ := 0.1
  branch_angle : ℚ := 0.15
  w : ℚ := 0.1
  l_segment : ℚ := 0.01
  fascicles_angles : List ℚ := []
  fascicles_length : List ℚ := []
  save : Bool := false
deriving DecidableEq, Repr

/-- Error raised for a nonpositive fascicle length at index `i`. -/
def fascLenErr (i : ℕ) : Err :=
  .valueErr ("fascicles_length[" ++ toString i ++ "] must be a finite positive number.")

/-- The per-entry loop over `fascicles_length` in `__post_init__`
(lines 116-120): the first nonpositive entry raises.  Finiteness of an
entry is by construction in the `ℚ` model. -/
def fascLenCheck : List ℚ → ℕ → Option Err
  | [], _ => none
  | x :: rest, i => if x ≤ 0 then some (fascLenErr i) else fascLenCheck rest (i + 1)

/-- The `__post_init__` validation (lines 68-120), as the first failing
check in source order, or `none` when every check passes.  `isinstance`
type checks and `math.isfinite` checks are discharged by the types of the
embedding (`ℤ`, `ℚ`) and so do not appear. -/
def paramsCheck (p : FractalTreeParameters) : Option Err :=
  if p.init_node_id < 0 then some (.typeErr ("init_node_id must be a nonnegative integer."))
  else if p.second_node_id < 0 then some (.typeErr ("second_node_id must be a nonnegative integer."))
  else if p.second_node_id = p.init_node_id then
    some (.valueErr ("second_node_id must differ from init_node_id."))
  else if p.init_length ≤ 0 then some (.valueErr ("init_length must be > 0."))
  else if p.N_it < 0 then some (.valueErr ("N_it must be >= 0."))
  else if p.length ≤ 0 then some (.valueErr ("length must be > 0."))
  else if p.w < 0 then some (.valueErr ("w must be >= 0."))
  else if p.l_segment ≤ 0 then some (.valueErr ("l_segment must be > 0."))
  else if p.branch_angle ≤ 0 ∨ mathPi < p.branch_angle then
    some (.valueErr ("branch_angle must be in the interval (0, pi]."))
  else if min p.init_length p.length < p.l_segment then
    some (.valueErr ("l_segment must be <= min(init_length, length)."))
  else if p.fascicles_angles.length = p.fascicles_length.length then
    fascLenCheck p.fascicles_length 0
  else some (.valueErr ("fascicles_angles and fascicles_length must have the same length."))

/-- Constructing a `FractalTreeParameters`: the dataclass runs
`__post_init__`, so construction either raises or yields the instance. -/
def mkParams (p : FractalTreeParameters) : Except Err FractalTreeParameters :=
  match paramsCheck p with
  | some e => .error e
  | none => .ok p

/-- An instance passes every `__post_init__` check. -/
def validParams (p : FractalTreeParameters) : Prop := paramsCheck p = none

instance (p : FractalTreeParameters) : Decidable (validParams p) := by
  unfold validParams; infer_instance

/-- The conjunction of the `__post_init__` invariants, stated directly. -/
def paramsOk (p : FractalTreeParameters) : Prop :=
  0 ≤ p.init_node_id ∧ 0 ≤ p.second_node_id ∧ p.second_node_id ≠ p.init_node_id ∧
  0 < p.init_length ∧ 0 ≤ p.N_it ∧ 0 < p.length ∧ 0 ≤ p.w ∧ 0 < p.l_segment ∧
  0 < p.branch_angle ∧ p.branch_angle ≤ mathPi ∧
  p.l_segment ≤ min p.init_length p.length ∧
  p.fascicles_angles.length = p.fascicles_length.length ∧
  ∀ x ∈ p.fascicles_length, 0 < x

lemma fascLenCheck_eq_none_iff (l : List ℚ) (i : ℕ) :
    fascLenCheck l i = none ↔ ∀ x ∈ l, 0 < x := by
  induction l generalizing i with
  | nil => simp [fascLenCheck]
  | cons a t ih =>
    simp only [fascLenCheck]
    by_cases h : a ≤ 0
    · have ha : ¬ 0 < a := not_lt.mpr h
      simp [h, ha]
    · have ha : 0 < a := lt_of_not_le h
      simp [h, ha, ih]

set_option maxHeartbeats 1000000 in
lemma paramsCheck_eq_none_iff (p : FractalTreeParameters) :
    paramsCheck p = none ↔ paramsOk p := by
  unfold paramsCheck
  split_ifs with h1 h2 h3 h4 h5 h6 h7 h8 h9 h10 h11
  · exact iff_of_false (by simp) fun hok => absurd hok.1 (not_le.mpr h1)
  · exact iff_of_false (by simp) fun hok => absurd hok.2.1 (not_le.mpr h2)
  · exact iff_of_false (by simp) fun hok => absurd h3 hok.2.2.1
  · exact iff_of_false (by simp) fun hok =>
      absurd hok.2.2.2.1 (not_lt.mpr h4)
  · exact iff_of_false (by simp) fun hok =>
      absurd hok.2.2.2.2.1 (not_le.mpr h5)
  · exact iff_of_false (by simp) fun hok =>
      absurd hok.2.2.2.2.2.1 (not_lt.mpr h6)
  · exact iff_of_false (by simp) fun hok =>
      absurd hok.2.2.2.2.2.2.1 (not_le.mpr h7)
  · exact iff_of_false (by simp) fun hok =>
      absurd hok.2.2.2.2.2.2.2.1 (not_lt.mpr h8)
  · refine iff_of_false (by simp) fun hok => h9.elim
      (fun h => absurd hok.2.2.2.2.2.2.2.2.1 (not_lt.mpr h))
      (fun h => absurd hok.2.2.2.2.2.2.2.2.2.1 (not_le.mpr h))
  · exact iff_of_false (by simp) fun hok =>
      absurd hok.2.2.2.2.2.2.2.2.2.2.1 (not_le.mpr h10)
  · rw [fascLenCheck_eq_none_iff]
    constructor
    · intro hf
      have h9a := not_or.mp h9
      refine ⟨not_lt.mp h1, not_lt.mp h2, h3, not_le.mp h4, not_lt.mp h5,
        not_le.mp h6, not_lt.mp h7, not_le.mp h8, not_le.mp h9a.1,
        not_lt.mp h9a.2, not_lt.mp h10, h11, hf⟩
    · exact fun hok => hok.2.2.2.2.2.2.2.2.2.2.2.2
  · exact iff_of_false (by simp) fun hok => absurd hok.2.2.2.2.2.2.2.2.2.2.2.1 h11

lemma validParams_iff (p : FractalTreeParameters) : validParams p ↔ paramsOk p :=
  paramsCheck_eq_none_iff p

lemma mkParams_eq_ok_iff (p q : FractalTreeParameters) :
    mkParams p = .ok q ↔ validParams p ∧ q = p := by
  unfold mkParams validParams
  cases h : paramsCheck p <;> simp [h, eq_comm]

lemma mkParams_of_valid (p : FractalTreeParameters) (h : validParams p) :
    mkParams p = .ok p := (mkParams_eq_ok_iff p p).mpr ⟨h, rfl⟩

/-- The field overrides of the `dataclasses.replace` call in
`grow_with_retry` (smoke script, lines 202-208): the three scalar lengths
and every fascicle length are multiplied by the shrink factor, every other
field is carried over. -/
def scaleParams (p : FractalTreeParameters) (s : ℚ) : FractalTreeParameters :=
  { p with
    init_length := p.init_length * s
    length := p.length * s
    l_segment := p.l_segment * s
    fascicles_length := p.fascicles_length.map (fun x => x * s) }

/-- The shrink transition of the retry controller: `dataclasses.replace`
constructs a fresh instance, so `__post_init__` runs again on the scaled
fields. -/
def shrinkStep (p : FractalTreeParameters) (s : ℚ) : Except Err FractalTreeParameters :=
  mkParams (scaleParams p s)

/-- Iterated shrink: parameters after `k` consecutive shrink transitions. -/
def shrinkIter (p : FractalTreeParameters) (s : ℚ) : ℕ → FractalTreeParameters
  | 0 => p
  | k + 1 => scaleParams (shrinkIter p s k) s

lemma valid_scaleParams (p : FractalTreeParameters) (s : ℚ)
    (hp : validParams p) (hs : 0 < s) : validParams (scaleParams p s) := by
  rw [validParams_iff] at hp ⊢
  obtain ⟨h1, h2, h3, h4, h5, h6, h7, h8, h9, h10, h11, h12, h13⟩ := hp
  refine ⟨h1, h2, h3, mul_pos h4 hs, h5, mul_pos h6 hs, h7, mul_pos h8 hs, h9, h10, ?_, ?_, ?_⟩
  · exact le_min
      (mul_le_mul_of_nonneg_right (le_trans h11 (min_le_left _ _)) hs.le)
      (mul_le_mul_of_nonneg_right (le_trans h11 (min_le_right _ _)) hs.le)
  · simpa [scaleParams] using h12
  · intro x hx
    simp only [scaleParams, List.mem_map] at hx
    obtain ⟨y, hy, rfl⟩ := hx
    exact mul_pos (h13 y hy) hs

lemma shrinkStep_of_valid (p : FractalTreeParameters) (s : ℚ)
    (hp : validParams p) (hs : 0 < s) :
    shrinkStep p s = .ok (scaleParams p s) :=
  mkParams_of_valid _ (valid_scaleParams p s hp hs)

lemma shrinkIter_scale_comm (p : FractalTreeParameters) (s : ℚ) (k : ℕ) :
    shrinkIter (scaleParams p s) s k = scaleParams (shrinkIter p s k) s := by
  induction k with
  | zero => rfl
  | succ k ih => simp [shrinkIter, ih]

lemma valid_shrinkIter (p : FractalTreeParameters) (s : ℚ) (k : ℕ)
    (hp : validParams p) (hs : 0 < s) : validParams (shrinkIter p s k) := by
  induction k with
  | zero => exact hp
  | succ k ih => exact valid_scaleParams _ s ih hs

/-- Containment test for a character sequence inside another, the model of
the Python substring operator `in`. -/
def listContainsSub (need : List Char) : List Char → Bool
  | [] => need.isEmpty
  | c :: t => need.isPrefixOf (c :: t) || listContainsSub need t

/-- The failure classification of `grow_with_retry` (smoke script,
lines 191-194): the exception text is lowercased and tested for the
substrings of the source, so the match is case-insensitive. -/
def isDomainMsg (e : String) : Bool :=
  let m := e.toList.map (Char.toLower)
  listContainsSub (("out of the domain").toList) m || listContainsSub (("domain").toList) m

/-- Message of the `RuntimeError` raised when the attempt budget is spent
(smoke script, lines 222-224); `none` prints as the Python literal. -/
def exhaustMsg (t : ℕ) (last : Option String) : String :=
  "Failed to grow tree after " ++ toString t ++ " attempts. Last error: " ++
    (match last with | none => "None" | some s => s)

/-- The retry loop of `grow_with_retry` (smoke script, lines 176-224),
instrumented with the number of growth-engine invocations and the number
of shrink transitions performed.  `engine i p` is the external call
`FractalTree(p); ft.grow_tree()` on 0-indexed attempt `i`, indexed by the
attempt so that stub engines with per-attempt behaviour are expressible;
its error is the text of the raised exception.  `fuel` is the number of
attempts remaining out of `T = max_tries`. -/
def growAux {Tree : Type} (engine : ℕ → FractalTreeParameters → Except String Tree)
    (s : ℚ) (T : ℕ) :
    ℕ → ℕ → FractalTreeParameters → Option String →
      Except Err (FractalTreeParameters × Tree) × ℕ × ℕ
  | 0, _, _, last => (.error (.runtimeErr (exhaustMsg T last)), 0, 0)
  | fuel + 1, i, p, _ =>
    match engine i p with
    | .ok t => (.ok (p, t), 1, 0)
    | .error e =>
      if isDomainMsg e then
        match shrinkStep p s with
        | .ok q =>
          let r := growAux engine s T fuel (i + 1) q (some e)
          (r.1, r.2.1 + 1, r.2.2 + 1)
        | .error cfg => (.error cfg, 1, 1)
      else (.error (.engineErr e), 1, 0)

/-- `grow_with_retry(params, label, max_tries, shrink)`: run the
instrumented loop from attempt 0 with the full budget and return its
outcome.  On success the final (possibly shrunk) parameters are returned
with the tree; a non-domain engine failure is re-raised unchanged as
`Err.engineErr`; an invalid shrunk instance raises the construction
error; an exhausted budget raises `Err.runtimeErr` carrying the last
engine failure. -/
def grow_with_retry {Tree : Type} (engine : ℕ → FractalTreeParameters → Except String Tree)
    (params : FractalTreeParameters) (max_tries : ℕ) (shrink : ℚ) :
    Except Err (FractalTreeParameters × Tree) :=
  (growAux engine shrink max_tries max_tries 0 params none).1

/-- Number of growth-engine invocations made by `grow_with_retry`. -/
def growCalls {Tree : Type} (engine : ℕ → FractalTreeParameters → Except String Tree)
    (params : FractalTreeParameters) (max_tries : ℕ) (shrink : ℚ) : ℕ :=
  (growAux engine shrink max_tries max_tries 0 params none).2.1

/-- Number of shrink transitions performed by `grow_with_retry`. -/
def growShrinks {Tree : Type} (engine : ℕ → FractalTreeParameters → Except String Tree)
    (params : FractalTreeParameters) (max_tries : ℕ) (shrink : ℚ) : ℕ :=
  (growAux engine shrink max_tries max_tries 0 params none).2.2

/-- The parameter instance built from the dataclass field defaults alone,
`FractalTreeParameters()` in Python. -/
def defaultParams : FractalTreeParameters := {}

/-- The class decorator in the source is `@dataclass(slots=True, frozen=False)`
(`fractal_tree_parameters.py`, line 18): the dataclass is explicitly not
frozen. -/
def dataclassFrozen : Bool := false

/-- Python attribute assignment `p.l_segment = v` on an existing instance:
refused (with `FrozenInstanceError`) only when the dataclass is frozen;
otherwise the field of the instance is updated in place and
`__post_init__` does not run again, so no validation happens. -/
def setattr_l_segment (p : FractalTreeParameters) (v : ℚ) :
    Except Err FractalTreeParameters :=
  if dataclassFrozen then .error (.valueErr ("cannot assign to field l_segment"))
  else .ok { p with l_segment := v }

/-- JSON values, the image of `json.dumps` / preimage of `json.loads`.
Python distinguishes `int` and `float` after parsing, hence `jint` and
`jnum` are separate. -/
inductive JVal
  | jnull
  | jstr (s : String)
  | jint (n : ℤ)
  | jnum (q : ℚ)
  | jbool (b : Bool)
  | jarr (xs : List JVal)

/-- A JSON object / Python dict as an ordered key-value list. -/
abbrev JDict := List (String × JVal)

/-- The dataclass field names, `{f.name for f in fields(cls)}`. -/
def validFieldNames : List String :=
  [("meshfile"), ("init_node_id"), ("second_node_id"), ("init_length"), ("N_it"),
   ("length"), ("branch_angle"), ("w"), ("l_segment"), ("fascicles_angles"),
   ("fascicles_length"), ("save")]

/-- Encoding of the optional `meshfile` field. -/
def encStrOpt : Option String → JVal
  | none => .jnull
  | some s => .jstr s

/-- The method `to_dict` (`dataclasses.asdict`), listing every field in
declaration order (`fractal_tree_parameters.py`, lines 140-142). -/
def FractalTreeParameters.to_dict (p : FractalTreeParameters) : JDict :=
  [(("meshfile"), encStrOpt p.meshfile),
   (("init_node_id"), .jint p.init_node_id),
   (("second_node_id"), .jint p.second_node_id),
   (("init_length"), .jnum p.init_length),
   (("N_it"), .jint p.N_it),
   (("length"), .jnum p.length),
   (("branch_angle"), .jnum p.branch_angle),
   (("w"), .jnum p.w),
   (("l_segment"), .jnum p.l_segment),
   (("fascicles_angles"), .jarr (p.fascicles_angles.map .jnum)),
   (("fascicles_length"), .jarr (p.fascicles_length.map .jnum)),
   (("save"), .jbool p.save)]

/-- Decode an optional-string field value. -/
def decStrOpt (v : JVal) : Except Err (Option String) :=
  match v with
  | .jnull => .ok none
  | .jstr s => .ok (some s)
  | _ => .error (.typeErr ("expected a string or null"))

/-- Decode a Python `int` field value. -/
def decInt (v : JVal) : Except Err ℤ :=
  match v with
  | .jint n => .ok n
  | _ => .error (.typeErr ("expected an integer"))

/-- Decode a real-valued field; a JSON integer is a `numbers.Real` too. -/
def decNum (v : JVal) : Except Err ℚ :=
  match v with
  | .jnum q => .ok q
  | .jint n => .ok (n : ℚ)
  | _ => .error (.typeErr ("expected a number"))

/-- Decode each element of a JSON array as a real. -/
def decNums : List JVal → Except Err (List ℚ)
  | [] => .ok []
  | v :: t => do
    let q ← decNum v
    let r ← decNums t
    .ok (q :: r)

/-- Decode a list of reals. -/
def decNumList (v : JVal) : Except Err (List ℚ) :=
  match v with
  | .jarr xs => decNums xs
  | _ => .error (.typeErr ("expected a list of numbers"))

/-- Decode a boolean field value. -/
def decBool (v : JVal) : Except Err Bool :=
  match v with
  | .jbool b => .ok b
  | _ => .error (.typeErr ("expected a boolean"))

/-- Keyword-argument lookup performed by `cls(**filtered)`: a key absent
from the mapping falls back to the dataclass field default. -/
def fieldOr {α : Type} (d : JDict) (k : String) (dec : JVal → Except Err α)
    (dflt : α) : Except Err α :=
  match List.lookup k d with
  | none => .ok dflt
  | some v => dec v

/-- The unknown keys computed (and warned about) by `from_dict`
(`fractal_tree_parameters.py`, lines 165-168): the argument of the
`logger.warning` diagnostic, in input order. -/
def from_dict_unknown (d : JDict) : List String :=
  (d.map Prod.fst).filter (fun k => !(validFieldNames.contains k))

/-- The classmethod `from_dict` (`fractal_tree_parameters.py`,
lines 159-170): unknown keys are dropped (with the warning above), the
remaining keys become keyword arguments of the constructor, missing keys
take the field defaults, and `__post_init__` re-validates.  A value whose
runtime type does not fit the field is a construction error (in Python
the mismatch surfaces from the `isinstance` checks of `__post_init__`).
Dropping the unknown keys does not change the lookup of any valid key, so
the lookups read the unfiltered mapping directly. -/
def FractalTreeParameters.from_dict (d : JDict) : Except Err FractalTreeParameters := do
  let meshfile ← fieldOr d ("meshfile") decStrOpt none
  let init_node_id ← fieldOr d ("init_node_id") decInt 0
  let second_node_id ← fieldOr d ("second_node_id") decInt 1
  let init_length ← fieldOr d ("init_length") decNum 0.1
  let nIt ← fieldOr d ("N_it") decInt 10
  let length ← fieldOr d ("length") decNum 0.1
  let branch_angle ← fieldOr d ("branch_angle") decNum 0.15
  let w ← fieldOr d ("w") decNum 0.1
  let l_segment ← fieldOr d ("l_segment") decNum 0.01
  let fascicles_angles ← fieldOr d ("fascicles_angles") decNumList []
  let fascicles_length ← fieldOr d ("fascicles_length") decNumList []
  let save ← fieldOr d ("save") decBool false
  mkParams
    { meshfile := meshfile, init_node_id := init_node_id,
      second_node_id := second_node_id, init_length := init_length,
      N_it := nIt, length := length, branch_angle := branch_angle, w := w,
      l_segment := l_segment, fascicles_angles := fascicles_angles,
      fascicles_length := fascicles_length, save := save }

/-- The method `to_json` (lines 144-152): `json.dumps` of `to_dict`.  The
textual rendering is the external standard library; the serialized
content is the JSON value of `to_dict`. -/
def FractalTreeParameters.to_json (p : FractalTreeParameters) : JDict :=
  p.to_dict

/-- The classmethod `from_json` (lines 172-175): `from_dict` of
`json.loads`, modelled at the JSON-value level. -/
def FractalTreeParameters.from_json (j : JDict) : Except Err FractalTreeParameters :=
  FractalTreeParameters.from_dict j

/-- A numpy float entry: `some q` is a finite value, `none` is `NaN` or
`±Inf`.  `np.isfinite` is `Option.isSome`. -/
abbrev PyVal := Option ℚ

/-- A numpy float array: row-major data with its shape. -/
structure FloatArr where
  shape : List ℕ
  data : List PyVal

/-- A numpy integer array (entries cannot be non-finite). -/
structure IntArr where
  shape : List ℕ
  data : List ℤ

/-- Addition with non-finite propagation. -/
def pvAdd : PyVal → PyVal → PyVal
  | some a, some b => some (a + b)
  | _, _ => none

/-- Subtraction with non-finite propagation. -/
def pvSub : PyVal → PyVal → PyVal
  | some a, some b => some (a - b)
  | _, _ => none

/-- Multiplication with non-finite propagation. -/
def pvMul : PyVal → PyVal → PyVal
  | some a, some b => some (a * b)
  | _, _ => none

/-- Division by a (vertex-count) natural number. -/
def pvDivN (x : PyVal) (n : ℕ) : PyVal :=
  match x with
  | some a => some (a / (n : ℚ))
  | none => none

/-- One 3-component vertex row. -/
abbrev V3 := PyVal × PyVal × PyVal

/-- Componentwise subtraction of rows. -/
def v3Sub (a b : V3) : V3 := (pvSub a.1 b.1, pvSub a.2.1 b.2.1, pvSub a.2.2 b.2.2)

/-- Dot product of rows. -/
def v3Dot (a b : V3) : PyVal :=
  pvAdd (pvMul a.1 b.1) (pvAdd (pvMul a.2.1 b.2.1) (pvMul a.2.2 b.2.2))

/-- Row `i` of an `(n, 3)` array. -/
def rowOf (a : FloatArr) (i : ℕ) : V3 :=
  (a.data.getD (3 * i) none, a.data.getD (3 * i + 1) none, a.data.getD (3 * i + 2) none)

/-- The `n` rows of an `(n, 3)` array, the matrix `v` of the selector. -/
def rowsOf (a : FloatArr) (n : ℕ) : List V3 := (List.range n).map (rowOf a)

/-- Componentwise column sums over rows. -/
def colSum (rows : List V3) : V3 :=
  rows.foldl (fun acc r => (pvAdd acc.1 r.1, pvAdd acc.2.1 r.2.1, pvAdd acc.2.2 r.2.2))
    (some 0, some 0, some 0)

/-- `v.mean(axis=0)` over `n` rows. -/
def colMean (rows : List V3) (n : ℕ) : V3 :=
  let s := colSum rows
  (pvDivN s.1 n, pvDivN s.2.1 n, pvDivN s.2.2 n)

/-- Squared Euclidean distance between two rows. -/
def dist2 (a b : V3) : PyVal :=
  let d := v3Sub a b
  v3Dot d d

/-- `np.argmin`: the index of the first non-finite entry when one exists
(numpy propagates `NaN` in `argmin`/`argmax`), otherwise the first index
attaining the minimum.  Only evaluated on nonempty input. -/
def npArgmin (l : List PyVal) : ℕ :=
  match l.findIdx? (fun x => x.isNone) with
  | some i => i
  | none =>
    let q := l.map (fun x => x.getD 0)
    (q.enum.foldl (fun best c => if c.2 < best.2 then c else best) (0, q.headD 0)).1

/-- `np.argmax`, with the same non-finite convention. -/
def npArgmax (l : List PyVal) : ℕ :=
  match l.findIdx? (fun x => x.isNone) with
  | some i => i
  | none =>
    let q := l.map (fun x => x.getD 0)
    (q.enum.foldl (fun best c => if best.2 < c.2 then c else best) (0, q.headD 0)).1

/-- Comparison used to embed `np.argsort(d2)`: sort the indices by their
`d2` value, non-finite values last, equal keys by index order.  numpy's
default introsort is deterministic; its tie order among equal keys is not
part of its contract, and this embedding fixes the stable (index) order. -/
def argsortLeB (d2 : List PyVal) (i j : ℕ) : Bool :=
  match d2.getD i none, d2.getD j none with
  | some x, some y => decide (x < y) || (decide (x = y) && decide (i ≤ j))
  | some _, none => true
  | none, some _ => false
  | none, none => decide (i ≤ j)

/-- `np.argsort(d2)[: max(k_nn, 3)]`: the neighbourhood `nn` of the
selector. -/
def nnOf (d2 : List PyVal) (n k : ℕ) : List ℕ :=
  (List.insertionSort (fun i j => argsortLeB d2 i j = true) (List.range n)).take (max k 3)

/-- The `second` selection of `pca_seed_vertices` (smoke script,
lines 94-103): the neighbour of maximal projection, with the
first-distinct fallback when it coincides with `init`. -/
def secondOf (proj : List PyVal) (init : ℕ) (nn : List ℕ) : ℕ :=
  let second0 := nn.getD (npArgmax (nn.map (fun i => proj.getD i none))) 0
  if second0 = init then
    match nn.find? (fun j => j != init) with
    | some j => j
    | none => second0
  else second0

/-- The shape guard of `pca_seed_vertices` (smoke script, lines 74-78):
`verts.ndim == 2 and verts.shape[1] == 3`.  It inspects only the shape. -/
def pcaShapeOk (verts : FloatArr) : Bool :=
  verts.shape.length == 2 && verts.shape.getD 1 0 == 3

/-- The index computation of `pca_seed_vertices` after the guard, for `n`
rows: centre, project on `pc1f` of the centred matrix, take the extreme
of the negative projection, and pick `second` in the sorted
neighbourhood. -/
def pcaCore (pc1f : List V3 → V3) (verts : FloatArr) (n k : ℕ) : ℕ × ℕ :=
  let v := rowsOf verts n
  let c := colMean v n
  let X := v.map (fun r => v3Sub r c)
  let pc1 := pc1f X
  let proj := X.map (fun r => v3Dot r pc1)
  let init := npArgmin proj
  let d2 := v.map (fun r => dist2 r (v.getD init (none, none, none)))
  let nn := nnOf d2 n k
  (init, secondOf proj init nn)

/-- `pca_seed_vertices(verts, k_nn)` (smoke script, lines 67-105).  The
external `np.linalg.svd` appears as the parameter `pc1f` giving the first
right-singular vector of the centred matrix.  A failing shape guard
raises the labelled `ValueError`; with zero rows `np.argmin` raises its
own (unlabelled) `ValueError`; otherwise the selector returns a pair of
indices. -/
def pca_seed_vertices (pc1f : List V3 → V3) (verts : FloatArr) (k_nn : ℕ) :
    Except Err (ℕ × ℕ) :=
  if pcaShapeOk verts = false then
    .error (.valueErr ("PCA: verts must be (N, 3)"))
  else if verts.shape.getD 0 0 = 0 then
    .error (.valueErr ("attempt to get argmin of an empty sequence"))
  else .ok (pcaCore pc1f verts (verts.shape.getD 0 0) k_nn)

/-- The PCA-labelled `ValueError` of the seed selector, the
`InvalidMeshGeometry` condition of the specification. -/
def isPCAErr (e : Err) : Bool :=
  match e with
  | .valueErr m => ("PCA: ").toList.isPrefixOf m.toList
  | _ => false

/-- `validate_outputs(nodes, edges, pmj, label)` (smoke script,
lines 235-263): the eight `require` checks in source order; the first
failing check raises its labelled `ValueError`. -/
def validate_outputs (nodes : FloatArr) (edges : IntArr) (pmj : IntArr)
    (label : String) : Except Err Unit :=
  if nodes.shape.length = 2 ∧ nodes.shape.getD 1 0 = 3 then
    if edges.shape.length = 2 ∧ edges.shape.getD 1 0 = 2 then
      if 10 < nodes.shape.getD 0 0 then
        if 10 < edges.shape.getD 0 0 then
          if 0 < pmj.shape.prod then
            if nodes.data.all (fun x => x.isSome) then
              if edges.data.all (fun e => decide (0 ≤ e) && decide (e < (nodes.shape.getD 0 0 : ℤ))) then
                if pmj.data.all (fun t => decide (0 ≤ t) && decide (t < (nodes.shape.getD 0 0 : ℤ))) then
                  .ok ()
                else .error (.valueErr (label ++ ": PMJ index out of range"))
              else .error (.valueErr (label ++ ": edge index out of range"))
            else .error (.valueErr (label ++ ": NaN/Inf in nodes"))
          else .error (.valueErr (label ++ ": PMJs empty"))
        else .error (.valueErr (label ++ ": too few edges"))
      else .error (.valueErr (label ++ ": too few nodes"))
    else .error (.valueErr (label ++ ": edges shape invalid"))
  else .error (.valueErr (label ++ ": nodes shape invalid"))

/-- The acceptance condition of the output validator as the specification
states it: nodes are an `N×3` finite array, edges an `M×2` array, the
terminal list is non-empty, every edge and terminal index lies in
`[0, N)`, and node and edge counts exceed the viability threshold 10. -/
def outputsWellFormed (nodes : FloatArr) (edges : IntArr) (pmj : IntArr) : Prop :=
  (∃ n, nodes.shape = [n, 3]) ∧ (∀ x ∈ nodes.data, x.isSome = true) ∧
  (∃ m, edges.shape = [m, 2]) ∧ pmj.data ≠ [] ∧
  (∀ e ∈ edges.data, 0 ≤ e ∧ e < (nodes.shape.getD 0 0 : ℤ)) ∧
  (∀ t ∈ pmj.data, 0 ≤ t ∧ t < (nodes.shape.getD 0 0 : ℤ)) ∧
  10 < nodes.shape.getD 0 0 ∧ 10 < edges.shape.getD 0 0

lemma growAux_zero {Tree : Type}
    (engine : ℕ → FractalTreeParameters → Except String Tree)
    (s : ℚ) (T i : ℕ) (p : FractalTreeParameters) (last : Option String) :
    growAux engine s T 0 i p last
      = (.error (.runtimeErr (exhaustMsg T last)), 0, 0) := rfl

lemma growAux_step_ok {Tree : Type}
    (engine : ℕ → FractalTreeParameters → Except String Tree)
    (s : ℚ) (T fuel i : ℕ) (p : FractalTreeParameters) (last : Option String)
    (t : Tree) (hE : engine i p = .ok t) :
    growAux engine s T (fuel + 1) i p last = (.ok (p, t), 1, 0) := by
  simp [growAux, hE]

lemma growAux_step_domain {Tree : Type}
    (engine : ℕ → FractalTreeParameters → Except String Tree)
    (s : ℚ) (T fuel i : ℕ) (p : FractalTreeParameters) (last : Option String)
    (e : String) (hE : engine i p = .error e) (hD : isDomainMsg e = true)
    (q : FractalTreeParameters) (hq : shrinkStep p s = .ok q) :
    growAux engine s T (fuel + 1) i p last
      = ((growAux engine s T fuel (i + 1) q (some e)).1,
         (growAux engine s T fuel (i + 1) q (some e)).2.1 + 1,
         (growAux engine s T fuel (i + 1) q (some e)).2.2 + 1) := by
  simp [growAux, hE, hD, hq]

lemma growAux_step_nondomain {Tree : Type}
    (engine : ℕ → FractalTreeParameters → Except String Tree)
    (s : ℚ) (T fuel i : ℕ) (p : FractalTreeParameters) (last : Option String)
    (e : String) (hE : engine i p = .error e) (hD : isDomainMsg e = false) :
    growAux engine s T (fuel + 1) i p last = (.error (.engineErr e), 1, 0) := by
  simp [growAux, hE, hD]

lemma growAux_exhaust {Tree : Type}
    (engine : ℕ → FractalTreeParameters → Except String Tree)
    (f : ℕ → FractalTreeParameters → String) (s : ℚ) (T : ℕ)
    (hE : ∀ j q, engine j q = .error (f j q))
    (hD : ∀ j q, isDomainMsg (f j q) = true) (hs : 0 < s) :
    ∀ (m i : ℕ) (p : FractalTreeParameters) (last : Option String),
      validParams p →
      growAux engine s T (m + 1) i p last
        = (.error (.runtimeErr (exhaustMsg T (some (f (i + m) (shrinkIter p s m))))),
           m + 1, m + 1) := by
  intro m
  induction m with
  | zero =>
    intro i p last hp
    rw [growAux_step_domain engine s T 0 i p last (f i p) (hE i p) (hD i p)
      (scaleParams p s) (shrinkStep_of_valid p s hp hs), growAux_zero]
    simp [shrinkIter]
  | succ m ih =>
    intro i p last hp
    have hv : validParams (scaleParams p s) := valid_scaleParams p s hp hs
    rw [growAux_step_domain engine s T (m + 1) i p last (f i p) (hE i p) (hD i p)
      (scaleParams p s) (shrinkStep_of_valid p s hp hs),
      ih (i + 1) (scaleParams p s) (some (f i p)) hv]
    have harith : i + 1 + m = i + (m + 1) := by omega
    rw [shrinkIter_scale_comm, harith]
    simp [shrinkIter]

lemma growAux_nonretry {Tree : Type}
    (engine : ℕ → FractalTreeParameters → Except String Tree)
    (g : ℕ → String) (e : String) (s : ℚ) (T : ℕ) (hs : 0 < s)
    (hDk : isDomainMsg e = false) :
    ∀ (k fuel i : ℕ) (p : FractalTreeParameters) (last : Option String),
      validParams p → k + 1 ≤ fuel →
      (∀ d, d < k → engine (i + d) (shrinkIter p s d) = .error (g (i + d))) →
      (∀ d, d < k → isDomainMsg (g (i + d)) = true) →
      engine (i + k) (shrinkIter p s k) = .error e →
      growAux engine s T fuel i p last = (.error (.engineErr e), k + 1, k) := by
  intro k
  induction k with
  | zero =>
    intro fuel i p last hp hfuel hE hD hEk
    match fuel, hfuel with
    | fuel + 1, _ =>
      simp only [shrinkIter, Nat.add_zero] at hEk
      rw [growAux_step_nondomain engine s T fuel i p last e hEk hDk]
  | succ k ih =>
    intro fuel i p last hp hfuel hE hD hEk
    match fuel, hfuel with
    | fuel + 1, hfuel =>
      have hE0 : engine i p = .error (g i) := by
        have := hE 0 (Nat.succ_pos k)
        simpa [shrinkIter] using this
      have hD0 : isDomainMsg (g i) = true := by
        have := hD 0 (Nat.succ_pos k)
        simpa using this
      have hv : validParams (scaleParams p s) := valid_scaleParams p s hp hs
      rw [growAux_step_domain engine s T fuel i p last (g i) hE0 hD0
        (scaleParams p s) (shrinkStep_of_valid p s hp hs),
        ih fuel (i + 1) (scaleParams p s) (some (g i)) hv (by omega)
        (fun d hd => by
          have h1 := hE (d + 1) (by omega)
          have harith : i + (d + 1) = i + 1 + d := by omega
          rw [harith] at h1
          simpa [shrinkIter_scale_comm, shrinkIter] using h1)
        (fun d hd => by
          have h1 := hD (d + 1) (by omega)
          have harith : i + (d + 1) = i + 1 + d := by omega
          rwa [harith] at h1)
        (by
          have harith : i + (k + 1) = i + 1 + k := by omega
          rw [harith] at hEk
          simpa [shrinkIter_scale_comm, shrinkIter] using hEk)]

lemma nnOf_length (d2 : List PyVal) (n k : ℕ) :
    (nnOf d2 n k).length = min (max k 3) n := by
  simp [nnOf, List.length_insertionSort]

lemma nnOf_nodup (d2 : List PyVal) (n k : ℕ) : (nnOf d2 n k).Nodup := by
  have hperm := List.perm_insertionSort
    (fun i j => argsortLeB d2 i j = true) (List.range n)
  have hsorted : (List.insertionSort (fun i j => argsortLeB d2 i j = true)
      (List.range n)).Nodup := hperm.nodup_iff.mpr (List.nodup_range n)
  exact List.Nodup.sublist (List.take_sublist _ _) hsorted

lemma secondOf_ne (proj : List PyVal) (init : ℕ) (nn : List ℕ)
    (hlen : 2 ≤ nn.length) (hnd : nn.Nodup) : secondOf proj init nn ≠ init := by
  have hex : ∃ x ∈ nn, (x != init) = true := by
    match nn, hlen with
    | a :: b :: t, _ =>
      have hab : a ≠ b := by
        have := List.nodup_cons.mp hnd
        exact fun h => this.1 (h ▸ List.mem_cons_self b t)
      by_cases ha : a = init
      · refine ⟨b, List.mem_cons_of_mem a (List.mem_cons_self b t), ?_⟩
        simpa [bne] using fun h => hab (by omega)
      · exact ⟨a, List.mem_cons_self a (b :: t), by simpa [bne] using ha⟩
  unfold secondOf
  by_cases h0 : nn.getD (npArgmax (nn.map fun i => proj.getD i none)) 0 = init
  · simp only [h0, if_true]
    obtain ⟨j, hj⟩ := Option.isSome_iff_exists.mp (List.find?_isSome.mpr hex)
    rw [hj]
    have := List.find?_some hj
    simpa [bne] using this
  · rw [if_neg h0]
    exact h0

lemma shape2_iff (l : List ℕ) (m : ℕ) :
    (l.length = 2 ∧ l.getD 1 0 = m) ↔ ∃ n, l = [n, m] := by
  match l with
  | [] => simp
  | [a] => simp
  | [a, b] =>
    simp only [List.length_cons, List.length_nil, List.getD]
    constructor
    · rintro ⟨-, rfl⟩
      exact ⟨a, rfl⟩
    · rintro ⟨n, h⟩
      obtain ⟨rfl, rfl⟩ : a = n ∧ b = m := by
        injection h with h1 h2
        injection h2 with h2 h3
        exact ⟨h1, h2⟩
      simp
  | a :: b :: c :: t => simp

lemma validate_outputs_eq_ok_iff (nodes : FloatArr) (edges : IntArr)
    (pmj : IntArr) (label : String)
    (hpmj : pmj.data.length = pmj.shape.prod) :
    validate_outputs nodes edges pmj label = .ok ()
      ↔ outputsWellFormed nodes edges pmj := by
  have hpm : 0 < pmj.shape.prod ↔ pmj.data ≠ [] := by
    rw [← hpmj, List.length_pos]
  unfold validate_outputs outputsWellFormed
  split_ifs with h1 h2 h3 h4 h5 h6 h7 h8
  · refine iff_of_true rfl ?_
    refine ⟨(shape2_iff _ _).mp h1, ?_, (shape2_iff _ _).mp h2, hpm.mp h5, ?_, ?_, h3, h4⟩
    · intro x hx
      exact List.all_eq_true.mp h6 x hx
    · intro e he
      have := List.all_eq_true.mp h7 e he
      simpa using this
    · intro t ht
      have := List.all_eq_true.mp h8 t ht
      simpa using this
  · refine iff_of_false (by simp) fun hw => h8 ?_
    refine List.all_eq_true.mpr fun t ht => ?_
    have := hw.2.2.2.2.2.1 t ht
    simpa using this
  · refine iff_of_false (by simp) fun hw => h7 ?_
    refine List.all_eq_true.mpr fun e he => ?_
    have := hw.2.2.2.2.1 e he
    simpa using this
  · refine iff_of_false (by simp) fun hw => h6 ?_
    exact List.all_eq_true.mpr fun x hx => hw.2.1 x hx
  · exact iff_of_false (by simp) fun hw => h5 (hpm.mpr hw.2.2.2.1)
  · exact iff_of_false (by simp) fun hw => h4 hw.2.2.2.2.2.2.2
  · exact iff_of_false (by simp) fun hw => h3 hw.2.2.2.2.2.2.1
  · exact iff_of_false (by simp) fun hw => h2 ((shape2_iff _ _).mpr hw.2.2.1)
  · exact iff_of_false (by simp) fun hw => h1 ((shape2_iff _ _).mpr hw.1)

lemma except_ok_bind {α β : Type} (a : α) (g : α → Except Err β) :
    ((Except.ok a : Except Err α) >>= g) = g a := rfl

lemma decStrOpt_encStrOpt (o : Option String) : decStrOpt (encStrOpt o) = .ok o := by
  cases o <;> rfl

lemma decNums_enc (l : List ℚ) : decNums (l.map JVal.jnum) = .ok l := by
  induction l with
  | nil => rfl
  | cons a t ih => simp [decNums, decNum, ih, except_ok_bind]

lemma decNumList_enc (l : List ℚ) : decNumList (.jarr (l.map .jnum)) = .ok l := by
  simp [decNumList, decNums_enc]

lemma from_dict_to_dict (p : FractalTreeParameters) :
    FractalTreeParameters.from_dict p.to_dict = mkParams p := by
  simp [FractalTreeParameters.from_dict, FractalTreeParameters.to_dict, fieldOr,
    List.lookup, decStrOpt_encStrOpt, decInt, decNum, decBool, decNumList_enc,
    except_ok_bind]

deriving instance DecidableEq for Except

lemma except_bind_ok {α β : Type} (x : Except Err α) (g : α → Except Err β)
    (b : β) (h : (x >>= g) = .ok b) : ∃ a, x = .ok a ∧ g a = .ok b := by
  cases x with
  | ok a => exact ⟨a, rfl, h⟩
  | error e => simp [Bind.bind, Except.bind] at h

lemma from_dict_ok_valid (d : JDict) (q : FractalTreeParameters)
    (h : FractalTreeParameters.from_dict d = .ok q) : validParams q := by
  unfold FractalTreeParameters.from_dict at h
  obtain ⟨v1, -, h⟩ := except_bind_ok _ _ _ h
  obtain ⟨v2, -, h⟩ := except_bind_ok _ _ _ h
  obtain ⟨v3, -, h⟩ := except_bind_ok _ _ _ h
  obtain ⟨v4, -, h⟩ := except_bind_ok _ _ _ h
  obtain ⟨v5, -, h⟩ := except_bind_ok _ _ _ h
  obtain ⟨v6, -, h⟩ := except_bind_ok _ _ _ h
  obtain ⟨v7, -, h⟩ := except_bind_ok _ _ _ h
  obtain ⟨v8, -, h⟩ := except_bind_ok _ _ _ h
  obtain ⟨v9, -, h⟩ := except_bind_ok _ _ _ h
  obtain ⟨v10, -, h⟩ := except_bind_ok _ _ _ h
  obtain ⟨v11, -, h⟩ := except_bind_ok _ _ _ h
  obtain ⟨v12, -, h⟩ := except_bind_ok _ _ _ h
  obtain ⟨hv, rfl⟩ := (mkParams_eq_ok_iff _ _).mp h
  exact hv

lemma from_dict_to_dict_app (p : FractalTreeParameters) :
    FractalTreeParameters.from_dict (p.to_dict ++ [(("unknown_key"), JVal.jint 123)])
      = mkParams p := by
  simp [FractalTreeParameters.from_dict, FractalTreeParameters.to_dict, fieldOr,
    List.lookup, decStrOpt_encStrOpt, decInt, decNum, decBool, decNumList_enc,
    except_ok_bind]

lemma from_dict_unknown_app (p : FractalTreeParameters) :
    from_dict_unknown (p.to_dict ++ [(("unknown_key"), JVal.jint 123)])
      = [("unknown_key")] := by
  simp [from_dict_unknown, FractalTreeParameters.to_dict, validFieldNames]

lemma validParams_default : validParams defaultParams := by
  rw [validParams_iff]
  refine ⟨by norm_num [defaultParams], by norm_num [defaultParams],
    by norm_num [defaultParams], by norm_num [defaultParams],
    by norm_num [defaultParams], by norm_num [defaultParams],
    by norm_num [defaultParams], by norm_num [defaultParams],
    by norm_num [defaultParams], by norm_num [defaultParams, mathPi],
    by norm_num [defaultParams], by simp [defaultParams], by simp [defaultParams]⟩

/-- Growth-engine stub of the retry scenario: attempts 1 and 2 (0-indexed
0 and 1) raise a domain-exit failure, attempt 3 succeeds. -/
def c1Engine : ℕ → FractalTreeParameters → Except String Unit :=
  fun i _ => if i < 2 then .error ("point left the domain") else .ok ()

/-- The parameters returned by the scenario run: every length field of the
defaults scaled by `0.85` twice. -/
def c1Final : FractalTreeParameters :=
  { defaultParams with
    init_length := 0.07225, length := 0.07225, l_segment := 0.007225 }

lemma c1_scenario :
    grow_with_retry c1Engine defaultParams 12 (0.85 : ℚ) = .ok (c1Final, ()) := by
  have hs : (0 : ℚ) < 0.85 := by norm_num
  have h0 := validParams_default
  have h1 : validParams (scaleParams defaultParams (0.85 : ℚ)) :=
    valid_scaleParams _ _ h0 hs
  unfold grow_with_retry
  rw [show (12 : ℕ) = 11 + 1 from rfl,
    growAux_step_domain c1Engine (0.85 : ℚ) (11 + 1) 11 0 defaultParams none
      ("point left the domain") rfl (by decide) _ (shrinkStep_of_valid _ _ h0 hs),
    growAux_step_domain c1Engine (0.85 : ℚ) (11 + 1) 10 1 _ _
      ("point left the domain") rfl (by decide) _ (shrinkStep_of_valid _ _ h1 hs),
    growAux_step_ok c1Engine (0.85 : ℚ) (11 + 1) 9 2 _ _ () rfl]
  norm_num [scaleParams, defaultParams, c1Final]

/-- C1: a shrink transition multiplies `init_length`, `length`,
`l_segment` and every `fascicles_length` entry by exactly the shrink
factor; and the stub engine that fails with a domain message on attempts
1 and 2 and succeeds on attempt 3, started from `length = 0.1` with
shrink `0.85`, succeeds with final `length = 0.1 * 0.85^2 = 0.07225`. -/
theorem C1_shrink_retry_scaling :
    (∀ (p q : FractalTreeParameters) (s : ℚ), shrinkStep p s = .ok q →
      q.init_length = p.init_length * s ∧ q.length = p.length * s ∧
      q.l_segment = p.l_segment * s ∧
      q.fascicles_length = p.fascicles_length.map (fun x => x * s))
    ∧ grow_with_retry c1Engine defaultParams 12 (0.85 : ℚ) = .ok (c1Final, ())
    ∧ c1Final.length = (0.07225 : ℚ) := by
  refine ⟨?_, c1_scenario, rfl⟩
  intro p q s h
  obtain ⟨-, rfl⟩ := (mkParams_eq_ok_iff _ _).mp h
  simp [scaleParams]

/-- Witness for C1 at a concrete shrink step of the defaults. -/
theorem C1_shrink_retry_scaling_witness :
    (scaleParams defaultParams (0.85 : ℚ)).init_length
        = defaultParams.init_length * 0.85 ∧
    (scaleParams defaultParams (0.85 : ℚ)).length = defaultParams.length * 0.85 ∧
    (scaleParams defaultParams (0.85 : ℚ)).l_segment
        = defaultParams.l_segment * 0.85 ∧
    (scaleParams defaultParams (0.85 : ℚ)).fascicles_length
        = defaultParams.fascicles_length.map (fun x => x * 0.85) :=
  C1_shrink_retry_scaling.1 defaultParams (scaleParams defaultParams (0.85 : ℚ))
    (0.85 : ℚ) (shrinkStep_of_valid defaultParams (0.85 : ℚ) validParams_default
      (by norm_num))

/-- C4 counterexample: the dataclass is declared `frozen=False`, so
in-place attribute assignment on an existing instance is permitted and
yields an invariant-violating instance with no error raised and no
re-validation performed. -/
theorem C4_mutability_counterexample :
    dataclassFrozen = false ∧
    setattr_l_segment defaultParams 5 = .ok { defaultParams with l_segment := 5 } ∧
    paramsCheck { defaultParams with l_segment := 5 } ≠ none := by
  refine ⟨rfl, rfl, fun h => ?_⟩
  have h11 := ((paramsCheck_eq_none_iff _).mp h).2.2.2.2.2.2.2.2.2.2.1
  norm_num [defaultParams] at h11

/-- C4 as amended: the dataclass itself is not frozen (`frozen=False`),
so the class does not prevent in-place field assignment; but every
parameter-producing operation the repository performs — the
`dataclasses.replace` shrink copy and `from_dict`/`from_json`
deserialization — builds a new instance that passes the full
`__post_init__` validation, never mutating its input. -/
theorem C4_copy_revalidation :
    dataclassFrozen = false ∧
    (∀ (p : FractalTreeParameters) (s : ℚ) (q : FractalTreeParameters),
      shrinkStep p s = .ok q → validParams q) ∧
    (∀ (d : JDict) (q : FractalTreeParameters),
      FractalTreeParameters.from_dict d = .ok q → validParams q) := by
  refine ⟨rfl, ?_, from_dict_ok_valid⟩
  intro p s q h
  obtain ⟨hv, rfl⟩ := (mkParams_eq_ok_iff _ _).mp h
  exact hv

/-- Witness for C4 at a concrete shrink step of the defaults. -/
theorem C4_copy_revalidation_witness :
    validParams (scaleParams defaultParams (0.5 : ℚ)) :=
  C4_copy_revalidation.2.1 defaultParams (0.5 : ℚ)
    (scaleParams defaultParams (0.5 : ℚ))
    (shrinkStep_of_valid defaultParams (0.5 : ℚ) validParams_default (by norm_num))

/-- Invalid parameter record of the construction test
(`test_fractal_tree_parameters.py`, line 77): `l_segment = 0.2` exceeds
`min(init_length, length) = 0.1`. -/
def c5Bad : FractalTreeParameters :=
  { defaultParams with l_segment := 0.2, init_length := 0.1, length := 0.15 }

/-- C5: every successfully constructed instance satisfies
`l_segment ≤ min(init_length, length)`; a construction attempt violating
the inequality always fails with a construction error, producing no
instance; and the invariant also holds of every instance produced by a
shrink copy or by deserialization. -/
theorem C5_l_segment_invariant :
    (∀ p q : FractalTreeParameters, mkParams p = .ok q →
      q.l_segment ≤ min q.init_length q.length) ∧
    (∀ p : FractalTreeParameters, min p.init_length p.length < p.l_segment →
      ∃ e, mkParams p = .error e) ∧
    (∀ (p : FractalTreeParameters) (s : ℚ) (q : FractalTreeParameters),
      shrinkStep p s = .ok q → q.l_segment ≤ min q.init_length q.length) ∧
    (∀ (d : JDict) (q : FractalTreeParameters),
      FractalTreeParameters.from_dict d = .ok q →
      q.l_segment ≤ min q.init_length q.length) := by
  have hok : ∀ p q : FractalTreeParameters, mkParams p = .ok q →
      q.l_segment ≤ min q.init_length q.length := by
    intro p q h
    obtain ⟨hv, rfl⟩ := (mkParams_eq_ok_iff _ _).mp h
    exact ((validParams_iff _).mp hv).2.2.2.2.2.2.2.2.2.2.1
  refine ⟨hok, ?_, fun p s q h => hok _ q h, ?_⟩
  · intro p hlt
    cases h : mkParams p with
    | error e => exact ⟨e, rfl⟩
    | ok q =>
      obtain ⟨hv, rfl⟩ := (mkParams_eq_ok_iff _ _).mp h
      exact absurd (((validParams_iff _).mp hv).2.2.2.2.2.2.2.2.2.2.1)
        (not_le.mpr hlt)
  · intro d q h
    have hv := from_dict_ok_valid d q h
    exact ((validParams_iff _).mp hv).2.2.2.2.2.2.2.2.2.2.1

/-- Witness for C5: the defaults satisfy the inequality, and the invalid
record from the construction test fails to construct. -/
theorem C5_l_segment_invariant_witness :
    defaultParams.l_segment ≤ min defaultParams.init_length defaultParams.length ∧
    (∃ e, mkParams c5Bad = .error e) :=
  ⟨C5_l_segment_invariant.1 defaultParams defaultParams
      (mkParams_of_valid defaultParams validParams_default),
   C5_l_segment_invariant.2.1 c5Bad (by norm_num [c5Bad, defaultParams])⟩

/-- C10: a shrink transition changes only the four length fields; the
remaining eight fields of the new instance equal those of the previous
instance. -/
theorem C10_shrink_frame :
    ∀ (p : FractalTreeParameters) (s : ℚ) (q : FractalTreeParameters),
      shrinkStep p s = .ok q →
      q.meshfile = p.meshfile ∧ q.init_node_id = p.init_node_id ∧
      q.second_node_id = p.second_node_id ∧ q.N_it = p.N_it ∧
      q.branch_angle = p.branch_angle ∧ q.w = p.w ∧
      q.fascicles_angles = p.fascicles_angles ∧ q.save = p.save := by
  intro p s q h
  obtain ⟨-, rfl⟩ := (mkParams_eq_ok_iff _ _).mp h
  simp [scaleParams]

/-- Witness for C10 at a concrete shrink step of the defaults. -/
theorem C10_shrink_frame_witness :
    (scaleParams defaultParams (0.5 : ℚ)).meshfile = defaultParams.meshfile ∧
    (scaleParams defaultParams (0.5 : ℚ)).init_node_id = defaultParams.init_node_id ∧
    (scaleParams defaultParams (0.5 : ℚ)).second_node_id = defaultParams.second_node_id ∧
    (scaleParams defaultParams (0.5 : ℚ)).N_it = defaultParams.N_it ∧
    (scaleParams defaultParams (0.5 : ℚ)).branch_angle = defaultParams.branch_angle ∧
    (scaleParams defaultParams (0.5 : ℚ)).w = defaultParams.w ∧
    (scaleParams defaultParams (0.5 : ℚ)).fascicles_angles = defaultParams.fascicles_angles ∧
    (scaleParams defaultParams (0.5 : ℚ)).save = defaultParams.save :=
  C10_shrink_frame defaultParams (0.5 : ℚ) (scaleParams defaultParams (0.5 : ℚ))
    (shrinkStep_of_valid defaultParams (0.5 : ℚ) validParams_default (by norm_num))

/-- C2: when every engine invocation reports a domain-classified failure,
the controller performs exactly `T ≥ 1` attempts and then raises the
exhaustion `RuntimeError` carrying the last observed failure (the failure
of attempt `T`, on the parameters shrunk `T - 1` times). -/
theorem C2_retry_exhaustion {Tree : Type}
    (engine : ℕ → FractalTreeParameters → Except String Tree)
    (f : ℕ → FractalTreeParameters → String) (p : FractalTreeParameters)
    (s : ℚ) (T : ℕ)
    (hE : ∀ j q, engine j q = .error (f j q))
    (hD : ∀ j q, isDomainMsg (f j q) = true)
    (hp : validParams p) (hs : 0 < s) (hT : 1 ≤ T) :
    growCalls engine p T s = T ∧
    grow_with_retry engine p T s
      = .error (.runtimeErr
          (exhaustMsg T (some (f (T - 1) (shrinkIter p s (T - 1)))))) := by
  obtain ⟨m, rfl⟩ : ∃ m, T = m + 1 := ⟨T - 1, by omega⟩
  have h := growAux_exhaust engine f s (m + 1) hE hD hs m 0 p none hp
  constructor
  · simp [growCalls, h]
  · simp [grow_with_retry, h]

/-- Growth-engine stub that always raises a domain-exit failure. -/
def c2Engine : ℕ → FractalTreeParameters → Except String Unit :=
  fun _ _ => .error ("out of the domain")

/-- Witness for C2: three attempts on the always-failing stub. -/
theorem C2_retry_exhaustion_witness :
    growCalls c2Engine defaultParams 3 (0.5 : ℚ) = 3 ∧
    grow_with_retry c2Engine defaultParams 3 (0.5 : ℚ)
      = .error (.runtimeErr (exhaustMsg 3 (some ("out of the domain")))) := by
  have h := C2_retry_exhaustion c2Engine (fun _ _ => ("out of the domain"))
    defaultParams (0.5 : ℚ) 3 (fun _ _ => rfl)
    (fun _ _ => show isDomainMsg ("out of the domain") = true by decide)
    validParams_default (by norm_num) (by omega)
  simpa using h

/-- C3: when the engine failure of attempt `k` is classified non-domain
(after domain-classified failures on the earlier attempts), the
controller stops after exactly `k` attempts, performs a shrink only for
each of the `k - 1` earlier domain failures and none for the non-domain
failure, and re-raises that failure unchanged. -/
theorem C3_nonretryable_propagation {Tree : Type}
    (engine : ℕ → FractalTreeParameters → Except String Tree)
    (g : ℕ → String) (e : String) (p : FractalTreeParameters)
    (s : ℚ) (T k : ℕ)
    (hp : validParams p) (hs : 0 < s) (hk : 1 ≤ k) (hkT : k ≤ T)
    (hE : ∀ d, d < k - 1 → engine d (shrinkIter p s d) = .error (g d))
    (hD : ∀ d, d < k - 1 → isDomainMsg (g d) = true)
    (hEk : engine (k - 1) (shrinkIter p s (k - 1)) = .error e)
    (hDk : isDomainMsg e = false) :
    growCalls engine p T s = k ∧ growShrinks engine p T s = k - 1 ∧
    grow_with_retry engine p T s = .error (.engineErr e) := by
  obtain ⟨k', rfl⟩ : ∃ k', k = k' + 1 := ⟨k - 1, by omega⟩
  have h := growAux_nonretry engine g e s T hs hDk k' T 0 p none hp (by omega)
    (fun d hd => by simpa using hE d (by omega))
    (fun d hd => by simpa using hD d (by omega))
    (by simpa using hEk)
  exact ⟨by simp [growCalls, h], by simp [growShrinks, h],
    by simp [grow_with_retry, h]⟩

/-- Growth-engine stub raising a domain failure on attempt 1 and an
unrelated failure on every later attempt. -/
def c3Engine : ℕ → FractalTreeParameters → Except String Unit :=
  fun i _ => if i = 0 then .error ("out of the domain") else .error ("mesh is broken")

/-- Witness for C3: the unrelated failure of attempt 2 stops the run. -/
theorem C3_nonretryable_propagation_witness :
    growCalls c3Engine defaultParams 5 (0.5 : ℚ) = 2 ∧
    growShrinks c3Engine defaultParams 5 (0.5 : ℚ) = 2 - 1 ∧
    grow_with_retry c3Engine defaultParams 5 (0.5 : ℚ)
      = .error (.engineErr ("mesh is broken")) := by
  have h := C3_nonretryable_propagation c3Engine (fun _ => ("out of the domain"))
    ("mesh is broken") defaultParams (0.5 : ℚ) 5 2 validParams_default
    (by norm_num) (by omega) (by omega)
    (fun d hd => by
      have hd0 : d = 0 := by omega
      subst hd0
      rfl)
    (fun d hd => by
      have hd0 : d = 0 := by omega
      subst hd0
      decide)
    rfl (by decide)
  exact h

/-- A fixed stand-in for the external SVD: the constant principal axis
`(1, 0, 0)`. -/
def cpc1 : List V3 → V3 := fun _ => (some 1, some 0, some 0)

/-- A single finite vertex at the origin, an `(1, 3)` array. -/
def oneVertArr : FloatArr := ⟨[1, 3], [some 0, some 0, some 0]⟩

lemma c6_one_vertex_eval : pca_seed_vertices cpc1 oneVertArr 30 = .ok (0, 0) := by
  norm_num [pca_seed_vertices, pcaShapeOk, pcaCore, oneVertArr, cpc1, rowsOf, rowOf,
    colMean, colSum, pvAdd, pvSub, pvMul, pvDivN, v3Sub, v3Dot, dist2,
    npArgmin, npArgmax, nnOf, argsortLeB, secondOf, List.range_succ,
    List.insertionSort, List.orderedInsert, List.findIdx?, List.enum]

/-- Two finite vertices `(0,0,0)` and `(2,0,0)`, a `(2, 3)` array. -/
def twoVertArr : FloatArr :=
  ⟨[2, 3], [some 0, some 0, some 0, some 2, some 0, some 0]⟩

set_option maxHeartbeats 4000000 in
lemma c6_two_vertex_eval : pca_seed_vertices cpc1 twoVertArr 30 = .ok (0, 1) := by
  norm_num [pca_seed_vertices, pcaShapeOk, pcaCore, twoVertArr, cpc1, rowsOf, rowOf,
    colMean, colSum, pvAdd, pvSub, pvMul, pvDivN, v3Sub, v3Dot, dist2,
    npArgmin, npArgmax, nnOf, argsortLeB, secondOf, List.range_succ,
    List.insertionSort, List.orderedInsert, List.findIdx?, List.enum]
  decide

/-- Two finite vertices `(0,0,0)` and `(4,0,0)`, a `(2, 3)` array. -/
def twoVertArrB : FloatArr :=
  ⟨[2, 3], [some 0, some 0, some 0, some 4, some 0, some 0]⟩

set_option maxHeartbeats 4000000 in
lemma c7_two_vertex_eval : pca_seed_vertices cpc1 twoVertArrB 30 = .ok (0, 1) := by
  norm_num [pca_seed_vertices, pcaShapeOk, pcaCore, twoVertArrB, cpc1, rowsOf, rowOf,
    colMean, colSum, pvAdd, pvSub, pvMul, pvDivN, v3Sub, v3Dot, dist2,
    npArgmin, npArgmax, nnOf, argsortLeB, secondOf, List.range_succ,
    List.insertionSort, List.orderedInsert, List.findIdx?, List.enum]

/-- C6 counterexample: a single-vertex `(1, 3)` input runs to success and
returns the pair `(0, 0)` with equal indices, so distinctness of the
returned indices does not hold for every successful return. -/
theorem C6_seed_selector_counterexample :
    pca_seed_vertices cpc1 oneVertArr 30 = .ok (0, 0) := c6_one_vertex_eval

/-- C6 as amended: the selector is a deterministic function of the vertex
array (and of the SVD axis), and on every successful return from an input
with at least two vertices the two returned indices differ; a
single-vertex input instead succeeds with `init = second = 0`. -/
theorem C6_seed_selector_determinism_distinct :
    (∀ (f : List V3 → V3) (v w : FloatArr) (k : ℕ), v = w →
      pca_seed_vertices f v k = pca_seed_vertices f w k) ∧
    (∀ (f : List V3 → V3) (v : FloatArr) (k i s : ℕ),
      2 ≤ v.shape.getD 0 0 → pca_seed_vertices f v k = .ok (i, s) → i ≠ s) := by
  refine ⟨fun f v w k h => by rw [h], ?_⟩
  intro f v k i s hn h
  unfold pca_seed_vertices at h
  by_cases hsh : pcaShapeOk v = false
  · rw [if_pos hsh] at h
    exact absurd h (by simp)
  · rw [if_neg hsh, if_neg (by omega : ¬ v.shape.getD 0 0 = 0)] at h
    injection h with h
    simp only [pcaCore] at h
    injection h with hA hB
    subst hA
    subst hB
    refine (secondOf_ne _ _ _ ?_ (nnOf_nodup _ _ _)).symm
    rw [nnOf_length]
    exact le_min (le_trans (by omega) (le_max_right k 3)) hn

/-- Witness for C6 on the two-vertex array. -/
theorem C6_seed_selector_witness :
    pca_seed_vertices cpc1 twoVertArr 30 = .ok (0, 1) ∧ (0 : ℕ) ≠ 1 :=
  ⟨c6_two_vertex_eval,
   C6_seed_selector_determinism_distinct.2 cpc1 twoVertArr 30 0 1 (by decide)
     c6_two_vertex_eval⟩

/-- C7 counterexample: a two-vertex `(2, 3)` finite input has fewer than
3 vertices, yet the selector does not fail at all — it returns a pair —
so the claimed `InvalidMeshGeometry` failure for fewer than 3 vertices
does not occur. -/
theorem C7_seed_failure_counterexample :
    twoVertArrB.shape.getD 0 0 < 3 ∧
    pca_seed_vertices cpc1 twoVertArrB 30 = .ok (0, 1) :=
  ⟨by decide, c7_two_vertex_eval⟩

/-- A `(1, 3)` array holding a non-finite entry. -/
def nanOneVert : FloatArr := ⟨[1, 3], [none, some 0, some 0]⟩

/-- C7 as amended: the selector raises its labelled `InvalidMeshGeometry`
`ValueError` exactly when the input is not an `(N, 3)` array — the guard
inspects only the shape; the vertex count is not checked (a two-vertex
input succeeds) and finiteness is not checked (the guard accepts an array
with a non-finite entry). -/
theorem C7_shape_guard_only :
    (∀ (f : List V3 → V3) (k : ℕ) (v : FloatArr), pcaShapeOk v = false →
      pca_seed_vertices f v k = .error (.valueErr ("PCA: verts must be (N, 3)"))) ∧
    (∀ (f : List V3 → V3) (k : ℕ) (v : FloatArr) (e : Err),
      pca_seed_vertices f v k = .error e → isPCAErr e = true →
      pcaShapeOk v = false) ∧
    pcaShapeOk nanOneVert = true := by
  refine ⟨?_, ?_, by decide⟩
  · intro f k v hv
    simp [pca_seed_vertices, hv]
  · intro f k v e h hp
    by_cases hv : pcaShapeOk v = false
    · exact hv
    · exfalso
      unfold pca_seed_vertices at h
      rw [if_neg hv] at h
      by_cases h0 : v.shape.getD 0 0 = 0
      · rw [if_pos h0] at h
        injection h with h
        rw [← h] at hp
        exact absurd hp (by decide)
      · rw [if_neg h0] at h
        exact absurd h (by simp)

/-- Witness for C7 on a concretely mis-shaped (1-dimensional) array. -/
theorem C7_shape_guard_only_witness :
    pca_seed_vertices cpc1 (FloatArr.mk [4] [some 0, some 0, some 0, some 0]) 30
      = .error (.valueErr ("PCA: verts must be (N, 3)")) :=
  C7_shape_guard_only.1 cpc1 30 (FloatArr.mk [4] [some 0, some 0, some 0, some 0])
    (by decide)

/-- 15 finite nodes, a `(15, 3)` array of zeros. -/
def nodesOK : FloatArr := ⟨[15, 3], List.replicate 45 (some 0)⟩

/-- 14 chain edges `(i, i+1)`, a `(14, 2)` array. -/
def edgesOK : IntArr :=
  ⟨[14, 2], ((List.range 14).map (fun i => [(i : ℤ), (i : ℤ) + 1])).flatten⟩

/-- Two in-range terminal indices. -/
def pmjOK : IntArr := ⟨[2], [0, 14]⟩

/-- A terminal list holding the out-of-range index 15. -/
def pmjBad : IntArr := ⟨[2], [15, 0]⟩

/-- C8: the output validator accepts exactly the inputs satisfying the
stated conditions (nodes `N×3` all finite, edges `M×2`, non-empty
terminal list, all edge and terminal indices in `[0, N)`, node and edge
counts above the threshold 10, which the source fixes at its default);
the 15-node scenario passes, and the same scenario with terminal index 15
fails with the `ValueError` naming the terminal-index check.  The
validator only inspects its arguments (it is a pure function of them). -/
theorem C8_output_validator :
    (∀ (nodes : FloatArr) (edges : IntArr) (pmj : IntArr) (label : String),
      pmj.data.length = pmj.shape.prod →
      (validate_outputs nodes edges pmj label = .ok ()
        ↔ outputsWellFormed nodes edges pmj)) ∧
    validate_outputs nodesOK edgesOK pmjOK ("LV") = .ok () ∧
    validate_outputs nodesOK edgesOK pmjBad ("LV")
      = .error (.valueErr ("LV: PMJ index out of range")) := by
  refine ⟨validate_outputs_eq_ok_iff, by decide, by decide⟩

/-- Witness for C8: the scenario arrays satisfy the stated acceptance
conditions. -/
theorem C8_output_validator_witness :
    validate_outputs nodesOK edgesOK pmjOK ("RV") = .ok () ∧
    outputsWellFormed nodesOK edgesOK pmjOK :=
  ⟨by decide,
   (C8_output_validator.1 nodesOK edgesOK pmjOK ("RV") (by decide)).mp (by decide)⟩

/-- C9: deserializing the serialization of a valid parameter object
restores it field for field; an unknown key is dropped (and is exactly
what the diagnostic warning reports) rather than raising; and every
deserialized object passed the full construction validation again. -/
theorem C9_serialization_roundtrip :
    (∀ p : FractalTreeParameters, validParams p →
      FractalTreeParameters.from_json p.to_json = .ok p) ∧
    (∀ p : FractalTreeParameters, validParams p →
      FractalTreeParameters.from_dict
        (p.to_dict ++ [(("unknown_key"), JVal.jint 123)]) = .ok p) ∧
    (∀ p : FractalTreeParameters,
      from_dict_unknown (p.to_dict ++ [(("unknown_key"), JVal.jint 123)])
        = [("unknown_key")]) ∧
    (∀ (d : JDict) (q : FractalTreeParameters),
      FractalTreeParameters.from_dict d = .ok q → validParams q) := by
  refine ⟨?_, ?_, from_dict_unknown_app, from_dict_ok_valid⟩
  · intro p hp
    rw [FractalTreeParameters.from_json, FractalTreeParameters.to_json,
      from_dict_to_dict]
    exact mkParams_of_valid p hp
  · intro p hp
    rw [from_dict_to_dict_app]
    exact mkParams_of_valid p hp

/-- Witness for C9 at the default parameters. -/
theorem C9_serialization_roundtrip_witness :
    FractalTreeParameters.from_json defaultParams.to_json = .ok defaultParams ∧
    FractalTreeParameters.from_dict
      (defaultParams.to_dict ++ [(("unknown_key"), JVal.jint 123)])
        = .ok defaultParams ∧
    from_dict_unknown (defaultParams.to_dict ++ [(("unknown_key"), JVal.jint 123)])
      = [("unknown_key")] :=
  ⟨C9_serialization_roundtrip.1 defaultParams validParams_default,
   C9_serialization_roundtrip.2.1 defaultParams validParams_default,
   C9_serialization_roundtrip.2.2.1 defaultParams⟩
